import Mathlib

/-!
Verification of the core logic of `src/crash_dashboard.py` (Winston-Salem
crash-analysis dashboard): the road classifier `is_highway`, the year/severity
filter, the aggregation layer (metrics, histograms, mode, road-type splits,
top-street tables), and a model of the Streamlit re-execution/caching
semantics relevant to the data load.

Pandas/Python constructs are embedded shallowly: a dataframe is a list of
records, a nullable CSV cell is an `Option`, `Series.isin` is list
membership, `value_counts` is count-over-deduplicated-keys, `Series.mode` is
the ascending-sorted list of maximum-frequency values, and floats are
modelled by exact rationals.
-/

namespace CrashDash

/-- Insert `a` into `l` before the first element `b` with `le a b`. -/
def insertLe {α : Type} (le : α → α → Bool) (a : α) : List α → List α
  | [] => [a]
  | b :: l => if le a b then a :: b :: l else b :: insertLe le a l

/-- Insertion sort by the comparator `le`: the embedding of the sorted
output of Python `sorted`, `Series.sort_index`, `Series.mode` and
`value_counts` — a permutation of the input, ordered by `le`. -/
def sortLe {α : Type} (le : α → α → Bool) : List α → List α
  | [] => []
  | a :: l => insertLe le a (sortLe le l)

theorem insertLe_perm {α : Type} (le : α → α → Bool) (a : α) :
    ∀ l, List.Perm (insertLe le a l) (a :: l) := by
  intro l
  induction l with
  | nil => exact List.Perm.refl _
  | cons b t ih =>
      by_cases h : le a b = true
      · simp [insertLe, h]
      · rw [insertLe, if_neg h]
        exact (ih.cons b).trans (List.Perm.swap a b t)

theorem sortLe_perm {α : Type} (le : α → α → Bool) :
    ∀ l, List.Perm (sortLe le l) l := by
  intro l
  induction l with
  | nil => exact List.Perm.refl _
  | cons a t ih => exact (insertLe_perm le a (sortLe le t)).trans (ih.cons a)

theorem mem_sortLe {α : Type} (le : α → α → Bool) (l : List α) (x : α) :
    x ∈ sortLe le l ↔ x ∈ l :=
  (sortLe_perm le l).mem_iff

theorem insertLe_pairwise {α : Type} {R : α → α → Prop} (le : α → α → Bool)
    (hRle : ∀ a b, le a b = true → R a b)
    (hRgt : ∀ a b, le a b = false → R b a)
    (hRtrans : ∀ a b c, R a b → R b c → R a c)
    (a : α) : ∀ l, l.Pairwise R → (insertLe le a l).Pairwise R := by
  intro l
  induction l with
  | nil => intro _; simp [insertLe]
  | cons b t ih =>
      intro hp
      obtain ⟨hbt, htp⟩ := List.pairwise_cons.mp hp
      by_cases h : le a b = true
      · rw [insertLe, if_pos h]
        refine List.pairwise_cons.mpr ⟨?_, hp⟩
        intro x hx
        rcases List.mem_cons.mp hx with rfl | hx
        · exact hRle a x h
        · exact hRtrans a b x (hRle a b h) (hbt x hx)
      · rw [insertLe, if_neg h]
        refine List.pairwise_cons.mpr ⟨?_, ih htp⟩
        intro x hx
        rcases List.mem_cons.mp ((insertLe_perm le a t).mem_iff.mp hx) with rfl | hx
        · exact hRgt x b (by simpa using h)
        · exact hbt x hx

theorem sortLe_pairwise {α : Type} {R : α → α → Prop} (le : α → α → Bool)
    (hRle : ∀ a b, le a b = true → R a b)
    (hRgt : ∀ a b, le a b = false → R b a)
    (hRtrans : ∀ a b c, R a b → R b c → R a c) :
    ∀ l : List α, (sortLe le l).Pairwise R := by
  intro l
  induction l with
  | nil => exact List.Pairwise.nil
  | cons a t ih => exact insertLe_pairwise le hRle hRgt hRtrans a _ ih

/-- Boolean prefix test on character lists. -/
def prefixMatch : List Char → List Char → Bool
  | [], _ => true
  | _ :: _, [] => false
  | a :: ps, b :: bs => a == b && prefixMatch ps bs

/-- Boolean substring containment on character lists, embedding the Python
expression `pattern in street_str` (crash_dashboard.py line 35). -/
def containsCL (pat : List Char) : List Char → Bool
  | [] => prefixMatch pat []
  | l@(_ :: bs) => prefixMatch pat l || containsCL pat bs

/-- The fixed pattern list of `is_highway`
(crash_dashboard.py lines 26-33), verbatim and in source order. -/
def highway_patterns : List String :=
  ["I-40", "I-74",
   "JOHN GOLD", "JOHN M GOLD",
   "EXPY", "FWY",
   "US-421", "US-52", "US-158", "US-311",
   "SALEM PKWY", "PETERS CREEK PKWY",
   "SILAS CREEK PKWY", "UNIVERSITY PKWY"]

/-- The road classifier (crash_dashboard.py lines 20-35).  A missing cell
(`pd.isna`) is `none`; otherwise the street string is uppercased character
by character (Python `str.upper`) and tested for containment of any pattern. -/
def is_highway : Option String → Bool
  | none => false
  | some street =>
      highway_patterns.any fun pattern =>
        containsCL pattern.data (street.data.map Char.toUpper)

theorem prefixMatch_iff (p : List Char) : ∀ l, prefixMatch p l = true ↔ p <+: l := by
  induction p with
  | nil => intro l; simp [prefixMatch]
  | cons a ps ih =>
      intro l
      cases l with
      | nil => simp [prefixMatch]
      | cons b bs =>
          simp [prefixMatch, List.cons_prefix_cons, ih, and_comm]

theorem containsCL_iff (p : List Char) : ∀ l, containsCL p l = true ↔ p <:+: l := by
  intro l
  induction l with
  | nil => simp [containsCL, prefixMatch_iff]
  | cons b bs ih =>
      simp [containsCL, prefixMatch_iff, ih, List.infix_cons_iff]

theorem infix_map_iff (f : Char → Char) (p : List Char) (l : List Char) :
    p <:+: l.map f ↔ ∃ t, t <:+: l ∧ t.map f = p := by
  constructor
  · rintro ⟨u, v, huv⟩
    rw [eq_comm, List.map_eq_append_iff] at huv
    obtain ⟨a, bc, rfl, ha, hbc⟩ := huv
    rw [List.map_eq_append_iff] at ha
    obtain ⟨a1, a2, rfl, ha1, ha2⟩ := ha
    exact ⟨a2, ⟨a1, bc, by simp⟩, ha2⟩
  · rintro ⟨t, ht, rfl⟩
    exact ht.map f

/-- C1: the classifier returns `false` on a missing street, and on a present
street it returns `true` exactly when the street contains one of the fixed
fourteen patterns as a substring after character-wise uppercasing — i.e.
exactly when some substring of the street uppercases to a pattern
(case-insensitive containment). -/
theorem C1_classifier_characterisation :
    is_highway none = false ∧
    ∀ s : String, (is_highway (some s) = true ↔
      ∃ p ∈ highway_patterns, ∃ t, t <:+: s.data ∧ t.map Char.toUpper = p.data) := by
  refine ⟨rfl, fun s => ?_⟩
  simp only [is_highway, List.any_eq_true]
  constructor
  · rintro ⟨p, hp, hc⟩
    rw [containsCL_iff, infix_map_iff] at hc
    exact ⟨p, hp, hc⟩
  · rintro ⟨p, hp, ht⟩
    exact ⟨p, hp, by rw [containsCL_iff, infix_map_iff]; exact ht⟩

/-- A Python value as it can reach `is_highway` through
`ws_df['Street'].apply` : a missing cell (`None`/`NaN`, where `pd.isna` is
true), a string, or any other non-null value carried by its `str()`
representation (crash_dashboard.py line 23 applies `str(street)` before
`.upper()`). -/
inductive PyVal where
  | null
  | str (s : String)
  | other (reprStr : String)
  deriving Repr, DecidableEq

/-- `pd.isna` on a `PyVal` (crash_dashboard.py line 21). -/
def pd_isna : PyVal → Bool
  | .null => true
  | _ => false

/-- Python `str()` on a non-null `PyVal` (crash_dashboard.py line 23). -/
def py_str : PyVal → String
  | .null => "None"
  | .str s => s
  | .other r => r

/-- The classifier over arbitrary Python values, embedding the full body of
`is_highway` (crash_dashboard.py lines 20-35): the `pd.isna` guard, then
`str(street).upper()` and the pattern scan. -/
def is_highway_py (v : PyVal) : Bool :=
  if pd_isna v then false
  else highway_patterns.any fun pattern =>
    containsCL pattern.data ((py_str v).data.map Char.toUpper)

/-- C9: the classifier is total: null/NaN input yields `false`, a string is
classified by the substring rule, and any other non-null value is classified
by the substring rule applied to its string representation — every case
returns a boolean, none raises. -/
theorem C9_classifier_total :
    is_highway_py PyVal.null = false ∧
    (∀ s, is_highway_py (PyVal.str s) = is_highway (some s)) ∧
    (∀ r, is_highway_py (PyVal.other r) = is_highway (some r)) :=
  ⟨rfl, fun _ => rfl, fun _ => rfl⟩

/-- A raw crash record as read from the CSV: the columns the core logic
touches.  `street` is the only nullable column (spec §3). -/
structure Crash where
  year : Int
  severity : Int
  hour : Int
  dayOfWeek : Int
  month : Int
  street : Option String
  deriving Repr, DecidableEq

/-- A record of the loaded dataframe `ws_df`: a raw record plus the derived
`Is_Highway` column (crash_dashboard.py line 42). -/
structure Row extends Crash where
  Is_Highway : Bool
  deriving Repr, DecidableEq

/-- The load step: `ws_df['Is_Highway'] = ws_df['Street'].apply(is_highway)`
(crash_dashboard.py line 42) applied to the rows read from the CSV. -/
def loadData (raw : List Crash) : List Row :=
  raw.map fun c => { toCrash := c, Is_Highway := is_highway c.street }

/-- The filter engine (crash_dashboard.py lines 64-67):
`ws_df[ws_df['Year'].isin(selected_years) & ws_df['Severity'].isin(selected_severity)]`. -/
def filtered_df (df : List Row) (selYears selSev : List Int) : List Row :=
  df.filter fun r => decide (r.year ∈ selYears ∧ r.severity ∈ selSev)

/-- Default year selection (crash_dashboard.py lines 48-53):
`sorted(ws_df['Year'].unique())`, also the multiselect default. -/
def default_years (df : List Row) : List Int :=
  sortLe (fun a b => a ≤ b) (df.map fun r => r.year).dedup

/-- Default severity selection (crash_dashboard.py lines 56-61):
`sorted(ws_df['Severity'].unique())`, also the multiselect default. -/
def default_severities (df : List Row) : List Int :=
  sortLe (fun a b => a ≤ b) (df.map fun r => r.severity).dedup

/-- C2: the filter returns exactly the records whose year and severity are
both selected, and an empty selection on either axis yields an empty result
(no "empty means all" special case). -/
theorem C2_filter_exact :
    ∀ (df : List Row) (Y S : List Int),
      (∀ r, r ∈ filtered_df df Y S ↔ r ∈ df ∧ r.year ∈ Y ∧ r.severity ∈ S) ∧
      filtered_df df [] S = [] ∧
      filtered_df df Y [] = [] := by
  intro df Y S
  refine ⟨fun r => ?_, ?_, ?_⟩
  · simp [filtered_df, List.mem_filter, and_assoc]
  · simp [filtered_df]
  · simp [filtered_df]

/-- C3: filtering with the default selections — all distinct observed years
and all distinct observed severities — returns the dataset unchanged. -/
theorem C3_default_filter_identity :
    ∀ df : List Row, filtered_df df (default_years df) (default_severities df) = df := by
  intro df
  apply List.filter_eq_self.mpr
  intro r hr
  simp only [default_years, default_severities, decide_eq_true_eq,
    mem_sortLe, List.mem_dedup, List.mem_map]
  exact ⟨⟨r, hr, rfl⟩, ⟨r, hr, rfl⟩⟩

/-- C5: every loaded record, and hence every record of any filtered view,
carries an `Is_Highway` flag equal to re-applying the classifier to its
street value. -/
theorem C5_flag_consistent :
    ∀ (raw : List Crash) (Y S : List Int) (r : Row),
      (r ∈ loadData raw → r.Is_Highway = is_highway r.street) ∧
      (r ∈ filtered_df (loadData raw) Y S → r.Is_Highway = is_highway r.street) := by
  intro raw Y S r
  have hload : r ∈ loadData raw → r.Is_Highway = is_highway r.street := by
    intro hr
    simp only [loadData, List.mem_map] at hr
    obtain ⟨c, _, rfl⟩ := hr
    rfl
  refine ⟨hload, fun hr => ?_⟩
  exact hload (List.mem_of_mem_filter hr)

/-- A concrete loaded row used by witnesses. -/
def sampleRowMain : Row :=
  { year := 2020, severity := 1, hour := 8, dayOfWeek := 2, month := 5,
    street := some "MAIN ST", Is_Highway := false }

/-- A concrete highway row used by witnesses. -/
def sampleRowI40 : Row :=
  { year := 2020, severity := 4, hour := 8, dayOfWeek := 3, month := 6,
    street := some "I-40 EAST", Is_Highway := true }

/-- Witness for C5 at a concrete dataset: the single raw record with street
"I-40 EAST" loads to a row whose flag matches the classifier. -/
theorem C5_flag_consistent_witness :
    sampleRowI40 ∈ loadData [sampleRowI40.toCrash] ∧
      sampleRowI40.Is_Highway = is_highway sampleRowI40.street := by
  have hmem : sampleRowI40 ∈ loadData [sampleRowI40.toCrash] := by decide
  exact ⟨hmem, (C5_flag_consistent [sampleRowI40.toCrash] [] [] sampleRowI40).1 hmem⟩

/-- Rows with `Severity >= 3` (crash_dashboard.py lines 116, 373, 426). -/
def severe_rows (df : List Row) : List Row :=
  df.filter fun r => decide (3 ≤ r.severity)

/-- `severe_count` (crash_dashboard.py line 116). -/
def severe_count (df : List Row) : Nat := (severe_rows df).length

/-- `severe_pct` (crash_dashboard.py line 117):
`(severe_count / len(filtered_df)) * 100 if len(filtered_df) > 0 else 0`.
Python floats are modelled by exact rationals. -/
def severe_pct (df : List Row) : ℚ :=
  if 0 < df.length then ((severe_count df : ℚ) / (df.length : ℚ)) * 100 else 0

/-- `avg_severity` (crash_dashboard.py line 128):
`filtered_df['Severity'].mean() if len(filtered_df) > 0 else 0`. -/
def avg_severity (df : List Row) : ℚ :=
  if 0 < df.length then (((df.map fun r => r.severity).sum : ℚ) / (df.length : ℚ)) else 0

/-- The maximal frequency of any value in `l`. -/
def maxFreq (l : List Int) : Nat := (l.map fun k => l.count k).foldr max 0

/-- Pandas `Series.mode()`: the distinct values of maximal frequency, sorted
ascending (crash_dashboard.py line 122 takes element `[0]` of this). -/
def modesSorted (l : List Int) : List Int :=
  sortLe (fun a b => a ≤ b) (l.dedup.filter fun k => decide (l.count k = maxFreq l))

/-- `peak_hour` (crash_dashboard.py lines 121-125): the first element of
`filtered_df['Hour'].mode()` when the frame is non-empty, otherwise the
"N/A" branch, modelled as `none`. -/
def peak_hour (df : List Row) : Option Int :=
  if 0 < df.length then (modesSorted (df.map fun r => r.hour)).head? else none

/-- `highway_crashes = filtered_df[filtered_df['Is_Highway'] == True]`
(crash_dashboard.py line 327). -/
def highway_crashes (df : List Row) : List Row :=
  df.filter fun r => r.Is_Highway

/-- `surface_crashes = filtered_df[filtered_df['Is_Highway'] == False]`
(crash_dashboard.py line 328). -/
def surface_crashes (df : List Row) : List Row :=
  df.filter fun r => !r.Is_Highway

/-- Highway-partition mean severity (crash_dashboard.py line 354):
`highway_crashes['Severity'].mean() if len(highway_crashes) > 0 else 0`. -/
def highway_avg_severity (df : List Row) : ℚ :=
  if 0 < (highway_crashes df).length then
    (((highway_crashes df).map fun r => r.severity).sum : ℚ) / ((highway_crashes df).length : ℚ)
  else 0

/-- Surface-partition mean severity (crash_dashboard.py line 355):
`surface_crashes['Severity'].mean() if len(surface_crashes) > 0 else 0`. -/
def surface_avg_severity (df : List Row) : ℚ :=
  if 0 < (surface_crashes df).length then
    (((surface_crashes df).map fun r => r.severity).sum : ℚ) / ((surface_crashes df).length : ℚ)
  else 0

/-- C4: on an empty record set the aggregations return their documented
empty values — severe percentage 0, average severity 0, peak hour "N/A" —
and each partition mean returns 0 whenever its partition has zero rows,
instead of dividing by zero. -/
theorem C4_empty_aggregations :
    severe_pct [] = 0 ∧ avg_severity [] = 0 ∧ peak_hour [] = none ∧
    (∀ df : List Row, (highway_crashes df).length = 0 → highway_avg_severity df = 0) ∧
    (∀ df : List Row, (surface_crashes df).length = 0 → surface_avg_severity df = 0) := by
  refine ⟨rfl, rfl, rfl, fun df h => ?_, fun df h => ?_⟩
  · simp [highway_avg_severity, h]
  · simp [surface_avg_severity, h]

/-- Witness for C4: a one-row dataset whose only row is a surface street has
an empty highway partition, and the highway mean degrades to 0; symmetrically
for a one-row highway dataset and the surface mean. -/
theorem C4_empty_aggregations_witness :
    (highway_crashes [sampleRowMain]).length = 0 ∧
    highway_avg_severity [sampleRowMain] = 0 ∧
    (surface_crashes [sampleRowI40]).length = 0 ∧
    surface_avg_severity [sampleRowI40] = 0 :=
  ⟨by decide, C4_empty_aggregations.2.2.2.1 [sampleRowMain] (by decide),
   by decide, C4_empty_aggregations.2.2.2.2 [sampleRowI40] (by decide)⟩

/-- `value_counts().sort_index()` over an integer column: one `(key, count)`
pair per distinct key, keys ascending (crash_dashboard.py lines 191, 208,
221, 244, 298). -/
def value_counts_sorted (l : List Int) : List (Int × Nat) :=
  (sortLe (fun a b => a ≤ b) l.dedup).map fun k => (k, l.count k)

/-- `hourly` (crash_dashboard.py line 191). -/
def hourly (df : List Row) : List (Int × Nat) :=
  value_counts_sorted (df.map fun r => r.hour)

/-- `daily` (crash_dashboard.py line 208). -/
def daily (df : List Row) : List (Int × Nat) :=
  value_counts_sorted (df.map fun r => r.dayOfWeek)

/-- `yearly` (crash_dashboard.py line 221). -/
def yearly (df : List Row) : List (Int × Nat) :=
  value_counts_sorted (df.map fun r => r.year)

/-- `monthly` (crash_dashboard.py line 244). -/
def monthly (df : List Row) : List (Int × Nat) :=
  value_counts_sorted (df.map fun r => r.month)

/-- `severity_counts` (crash_dashboard.py line 298). -/
def severity_counts (df : List Row) : List (Int × Nat) :=
  value_counts_sorted (df.map fun r => r.severity)

/-- `severe_highway` (crash_dashboard.py line 374). -/
def severe_highway (df : List Row) : List Row :=
  (severe_rows df).filter fun r => r.Is_Highway

/-- `severe_surface` (crash_dashboard.py line 375). -/
def severe_surface (df : List Row) : List Row :=
  (severe_rows df).filter fun r => !r.Is_Highway

theorem sum_value_counts (l : List Int) :
    ((value_counts_sorted l).map Prod.snd).sum = l.length := by
  have hperm : List.Perm (sortLe (fun a b => a ≤ b) l.dedup) l.dedup :=
    sortLe_perm _ _
  have h1 : ((value_counts_sorted l).map Prod.snd).sum
      = ((sortLe (fun a b => a ≤ b) l.dedup).map fun k => l.count k).sum := by
    simp only [value_counts_sorted, List.map_map]
    rfl
  rw [h1, (hperm.map fun k => l.count k).sum_eq]
  exact List.sum_map_count_dedup_eq_length l

theorem length_filter_split (p : Row → Bool) (df : List Row) :
    (df.filter p).length + (df.filter fun r => !p r).length = df.length := by
  induction df with
  | nil => rfl
  | cons a t ih =>
      cases h : p a <;> simp [List.filter_cons, h] <;> omega

/-- C6: every grouped-count decomposition conserves the total: each histogram
sums to the row count of its input, the highway/surface split sums to the row
count, and the severe split sums to the severe row count. -/
theorem C6_count_conservation :
    ∀ df : List Row,
      ((hourly df).map Prod.snd).sum = df.length ∧
      ((daily df).map Prod.snd).sum = df.length ∧
      ((monthly df).map Prod.snd).sum = df.length ∧
      ((yearly df).map Prod.snd).sum = df.length ∧
      ((severity_counts df).map Prod.snd).sum = df.length ∧
      (highway_crashes df).length + (surface_crashes df).length = df.length ∧
      (severe_highway df).length + (severe_surface df).length = (severe_rows df).length := by
  intro df
  refine ⟨?_, ?_, ?_, ?_, ?_, ?_, ?_⟩
  · rw [hourly, sum_value_counts, List.length_map]
  · rw [daily, sum_value_counts, List.length_map]
  · rw [monthly, sum_value_counts, List.length_map]
  · rw [yearly, sum_value_counts, List.length_map]
  · rw [severity_counts, sum_value_counts, List.length_map]
  · exact length_filter_split _ df
  · exact length_filter_split _ (severe_rows df)

theorem foldr_max_mem : ∀ L : List Nat, L ≠ [] → L.foldr max 0 ∈ L := by
  intro L
  induction L with
  | nil => intro h; exact absurd rfl h
  | cons a t ih =>
      intro _
      cases t with
      | nil => simp
      | cons b u =>
          have hfold : (a :: b :: u).foldr max 0 = max a ((b :: u).foldr max 0) := rfl
          rcases max_choice a ((b :: u).foldr max 0) with hm | hm
          · rw [hfold, hm]; exact List.mem_cons_self ..
          · rw [hfold, hm]; exact List.mem_cons_of_mem _ (ih (by simp))

theorem le_foldr_max : ∀ (L : List Nat), ∀ x ∈ L, x ≤ L.foldr max 0 := by
  intro L
  induction L with
  | nil => intro x hx; cases hx
  | cons a t ih =>
      intro x hx
      rcases List.mem_cons.mp hx with rfl | hx
      · exact le_max_left _ _
      · exact le_trans (ih x hx) (le_max_right _ _)

theorem count_le_maxFreq (l : List Int) (k : Int) : l.count k ≤ maxFreq l := by
  by_cases hk : k ∈ l
  · exact le_foldr_max _ _ (List.mem_map_of_mem _ hk)
  · rw [List.count_eq_zero.mpr hk]; exact Nat.zero_le _

theorem maxFreq_attained (l : List Int) (h : l ≠ []) :
    ∃ k ∈ l, l.count k = maxFreq l := by
  have hm := foldr_max_mem (l.map fun k => l.count k) (by simpa using h)
  rw [List.mem_map] at hm
  obtain ⟨k, hk, hck⟩ := hm
  exact ⟨k, hk, hck⟩

theorem mem_modesSorted (l : List Int) (x : Int) :
    x ∈ modesSorted l ↔ x ∈ l ∧ l.count x = maxFreq l := by
  simp [modesSorted, mem_sortLe, List.mem_filter, List.mem_dedup]

theorem modesSorted_pairwise (l : List Int) :
    (modesSorted l).Pairwise fun a b => a ≤ b := by
  apply sortLe_pairwise
  · intro a b h; exact of_decide_eq_true h
  · intro a b h; exact le_of_not_le (of_decide_eq_false h)
  · intro a b c; exact le_trans

/-- C7: on an empty record set the peak-hour metric is "N/A"; on a non-empty
one it returns a most frequent hour value, and among hour values of maximal
frequency it returns the smallest (the first element of the
ascending-sorted pandas mode). -/
theorem C7_peak_hour_mode :
    peak_hour [] = none ∧
    ∀ df : List Row, 0 < df.length →
      ∃ ph, peak_hour df = some ph ∧ ph ∈ (df.map fun r => r.hour) ∧
        (∀ k, (df.map fun r => r.hour).count k ≤ (df.map fun r => r.hour).count ph) ∧
        (∀ k, k ∈ (df.map fun r => r.hour) →
          (df.map fun r => r.hour).count k = (df.map fun r => r.hour).count ph → ph ≤ k) := by
  refine ⟨rfl, fun df hlen => ?_⟩
  have hne : (df.map fun r => r.hour) ≠ [] := by
    cases df with
    | nil => cases hlen
    | cons a t => simp
  obtain ⟨k0, hk0l, hk0c⟩ := maxFreq_attained _ hne
  have hk0m : k0 ∈ modesSorted (df.map fun r => r.hour) :=
    (mem_modesSorted _ k0).mpr ⟨hk0l, hk0c⟩
  cases hms : modesSorted (df.map fun r => r.hour) with
  | nil => rw [hms] at hk0m; cases hk0m
  | cons ph t =>
      have hph : peak_hour df = some ph := by
        rw [peak_hour, if_pos hlen, hms]; rfl
      have hphm : ph ∈ modesSorted (df.map fun r => r.hour) := by
        rw [hms]; exact List.mem_cons_self ..
      obtain ⟨hphl, hphc⟩ := (mem_modesSorted _ ph).mp hphm
      refine ⟨ph, hph, hphl, fun k => ?_, fun k hkl hkc => ?_⟩
      · rw [hphc]; exact count_le_maxFreq _ k
      · have hkm : k ∈ modesSorted (df.map fun r => r.hour) :=
          (mem_modesSorted _ k).mpr ⟨hkl, by rw [hkc, hphc]⟩
        rw [hms] at hkm
        rcases List.mem_cons.mp hkm with rfl | hkt
        · exact le_refl _
        · have hpw := modesSorted_pairwise (df.map fun r => r.hour)
          rw [hms] at hpw
          exact (List.pairwise_cons.mp hpw).1 k hkt

/-- A concrete row with hour 5, used to exercise the mode tie-break. -/
def sampleRowHour5 : Row :=
  { year := 2021, severity := 2, hour := 5, dayOfWeek := 4, month := 7,
    street := some "ELM ST", Is_Highway := false }

/-- Witness for C7 at a concrete two-row dataset whose hours 8 and 5 tie at
frequency one: the theorem applies, and the returned peak hour is 5, the
smaller of the tied values. -/
theorem C7_peak_hour_mode_witness :
    (0 < [sampleRowI40, sampleRowHour5].length ∧
      ∃ ph, peak_hour [sampleRowI40, sampleRowHour5] = some ph ∧
        ph ∈ ([sampleRowI40, sampleRowHour5].map fun r => r.hour) ∧
        (∀ k, ([sampleRowI40, sampleRowHour5].map fun r => r.hour).count k ≤
          ([sampleRowI40, sampleRowHour5].map fun r => r.hour).count ph) ∧
        (∀ k, k ∈ ([sampleRowI40, sampleRowHour5].map fun r => r.hour) →
          ([sampleRowI40, sampleRowHour5].map fun r => r.hour).count k =
            ([sampleRowI40, sampleRowHour5].map fun r => r.hour).count ph → ph ≤ k)) ∧
    peak_hour [sampleRowI40, sampleRowHour5] = some 5 :=
  ⟨⟨by decide, C7_peak_hour_mode.2 [sampleRowI40, sampleRowHour5] (by decide)⟩, by decide⟩

/-- The non-null street values of a frame: `value_counts` on the `Street`
column silently drops NaN cells (pandas default `dropna=True`). -/
def street_values (df : List Row) : List String :=
  df.filterMap fun r => r.street

/-- `Street` column `value_counts()`: one `(street, count)` pair per distinct
non-null street, sorted by count descending
(crash_dashboard.py lines 411, 428 before `.head(10)`). -/
def street_counts (df : List Row) : List (String × Nat) :=
  sortLe (fun a b => b.2 ≤ a.2)
    ((street_values df).dedup.map fun s => (s, (street_values df).count s))

/-- `top_streets = filtered_df['Street'].value_counts().head(10)`
(crash_dashboard.py line 411). -/
def top_streets (df : List Row) : List (String × Nat) :=
  (street_counts df).take 10

/-- `top_severe_streets = severe_df['Street'].value_counts().head(10)`
(crash_dashboard.py lines 426-428). -/
def top_severe_streets (df : List Row) : List (String × Nat) :=
  (street_counts (severe_rows df)).take 10

theorem length_street_values (df : List Row) :
    (street_values df).length = (df.filter fun r => r.street.isSome).length := by
  induction df with
  | nil => rfl
  | cons a t ih =>
      cases h : a.street <;>
        simp [street_values, List.filterMap_cons, h, List.filter_cons] <;>
        simpa [street_values] using ih

theorem sum_street_counts (df : List Row) :
    ((street_counts df).map Prod.snd).sum = (df.filter fun r => r.street.isSome).length := by
  have hperm :
      List.Perm
        (sortLe (fun a b : String × Nat => b.2 ≤ a.2)
          ((street_values df).dedup.map fun s => (s, (street_values df).count s)))
        ((street_values df).dedup.map fun s => (s, (street_values df).count s)) :=
    sortLe_perm _ _
  have h1 : ((street_counts df).map Prod.snd).sum
      = (((street_values df).dedup.map fun s => (s, (street_values df).count s)).map
          Prod.snd).sum := by
    rw [street_counts, (hperm.map Prod.snd).sum_eq]
  rw [h1, List.map_map]
  have h2 :
      (((street_values df).dedup.map
        (Prod.snd ∘ fun s => (s, (street_values df).count s))).sum)
      = (street_values df).length := List.sum_map_count_dedup_eq_length _
  rw [h2, length_street_values]

theorem street_counts_keys (df : List Row) :
    ∀ pr ∈ street_counts df, ∃ r ∈ df, r.street = some pr.1 := by
  intro pr hpr
  rw [street_counts] at hpr
  have hmem := (sortLe_perm _ _).mem_iff.mp hpr
  rw [List.mem_map] at hmem
  obtain ⟨s, hs, rfl⟩ := hmem
  rw [List.mem_dedup, street_values, List.mem_filterMap] at hs
  obtain ⟨r, hr, hrs⟩ := hs
  exact ⟨r, hr, hrs⟩

/-- A concrete row with a missing street value, used to exhibit strictness. -/
def sampleRowNoStreet : Row :=
  { year := 2022, severity := 3, hour := 17, dayOfWeek := 5, month := 9,
    street := none, Is_Highway := false }

/-- C10: the top-street tables group over non-null street values only — every
listed street is the street of some record — and the per-street counts of the
underlying grouping sum to the number of records with a non-null street; on a
concrete frame containing a null-street record that sum is strictly below the
row count. -/
theorem C10_top_streets_dropna :
    (∀ df : List Row,
      (∀ pr ∈ top_streets df, ∃ r ∈ df, r.street = some pr.1) ∧
      (∀ pr ∈ top_severe_streets df, ∃ r ∈ severe_rows df, r.street = some pr.1) ∧
      ((street_counts df).map Prod.snd).sum = (df.filter fun r => r.street.isSome).length ∧
      ((street_counts (severe_rows df)).map Prod.snd).sum
        = ((severe_rows df).filter fun r => r.street.isSome).length) ∧
    ((street_counts [sampleRowI40, sampleRowNoStreet]).map Prod.snd).sum
      < [sampleRowI40, sampleRowNoStreet].length := by
  refine ⟨fun df => ⟨?_, ?_, sum_street_counts df, sum_street_counts (severe_rows df)⟩, ?_⟩
  · intro pr hpr
    exact street_counts_keys df pr (List.take_subset _ _ hpr)
  · intro pr hpr
    exact street_counts_keys (severe_rows df) pr (List.take_subset _ _ hpr)
  · decide

/-- One top-level statement of the dashboard script, as relevant to the
Streamlit execution model: a plain statement, a call to an
`@st.cache_data`-decorated function (memoized across reruns by its argument
key), or the un-decorated top-level `pd.read_csv`. -/
inductive ScriptStep where
  | plain
  | cachedCall (key : String)
  | rawRead
  deriving Repr, DecidableEq

/-- Per-session state: the `st.cache_data` memo table, which persists across
script reruns within a session, and the number of times the raw CSV read has
executed. -/
structure SessionState where
  cacheKeys : List String
  loadCount : Nat
  deriving Repr, DecidableEq

/-- Execute one top-level statement: a raw read always reads; a cached call
executes only on a cache miss and then records its key; plain statements do
not touch this state. -/
def runStep (s : SessionState) : ScriptStep → SessionState
  | .plain => s
  | .cachedCall k =>
      if s.cacheKeys.contains k then s else { s with cacheKeys := k :: s.cacheKeys }
  | .rawRead => { s with loadCount := s.loadCount + 1 }

/-- One rerun of the script executes every top-level statement in order
(Streamlit re-executes the whole script on each viewer interaction). -/
def runScript (steps : List ScriptStep) (s : SessionState) : SessionState :=
  steps.foldl runStep s

/-- The execution skeleton of crash_dashboard.py: the `@st.cache_data`
decorator at line 18 is attached to `is_highway` (line 20), so the only
cached call is the classifier application (line 42), while
`ws_df = pd.read_csv(...)` (line 39) is a plain top-level read. -/
def crashScript : List ScriptStep :=
  [ScriptStep.plain,
   ScriptStep.rawRead,
   ScriptStep.cachedCall "is_highway"]

/-- Session state after `n` viewer interactions (each interaction reruns the
script once), starting from an empty cache at process start. -/
def sessionAfter : Nat → SessionState
  | 0 => { cacheKeys := [], loadCount := 0 }
  | n + 1 => runScript crashScript (sessionAfter n)

theorem loadCount_runScript (s : SessionState) :
    (runScript crashScript s).loadCount = s.loadCount + 1 := by
  simp only [runScript, crashScript, List.foldl_cons, List.foldl_nil, runStep]
  split <;> rfl

/-- C8: the raw CSV read is NOT memoized for the session — it re-executes on
every viewer interaction, so after `n` interactions the data has been read
`n` times; in particular after two interactions it has been read twice, not
once as the claim requires. -/
theorem C8_load_repeats_every_rerun :
    (∀ n, (sessionAfter n).loadCount = n) ∧ (sessionAfter 2).loadCount = 2 := by
  have hall : ∀ n, (sessionAfter n).loadCount = n := by
    intro n
    induction n with
    | zero => rfl
    | succ m ih => rw [sessionAfter, loadCount_runScript, ih]
  exact ⟨hall, hall 2⟩

end CrashDash
